import Mathlib

/-!
A verification development for the maffpock repository: a shallow embedding
of the access-flow engine (`bot/handlers/main_menu.py`) and of the postback
receiver (`postback_app.py`) over an explicit database state, together with
theorems settling the specified properties.

Modelling conventions:
* The SQLAlchemy store becomes an explicit `Db` record (user rows, deposit
  rows, the singleton settings row, and primary-key counters).
* Monetary `Numeric(12,2)` columns and Python floats become `Rat`; the code
  only sums and compares amounts, so no rounding behaviour is relevant here.
* Outbound network activity (message sends, the live `get_chat_member`
  check) is abstract: the result of the live subscription check is an
  `oracle : Bool` parameter, and each send becomes an event in a trace.
* Timestamps (`created_at` / `updated_at`) are not modelled; no claim
  depends on them.
-/

/-- Row of the `users` table (`bot/models/user.py`). -/
structure User where
  id : Nat
  telegram_id : Int
  username : Option String
  language : Option String
  is_subscribed : Bool
  is_registered : Bool
  has_basic_access : Bool
  is_vip : Bool
  trader_id : Option String
deriving DecidableEq

/-- Row of the `deposits` table (`bot/models/deposit.py`).  The column
`user_id` is NOT NULL in the schema; committed rows always carry a real id. -/
structure DepositRow where
  id : Nat
  user_id : Nat
  amount : Rat
deriving DecidableEq

/-- The singleton `settings` row (`bot/models/settings.py`). -/
structure Settings where
  ref_link : Option String
  deposit_link : Option String
  channel_id : Option String
  channel_url : Option String
  support_url : Option String
  require_subscription : Bool
  require_deposit : Bool
  deposit_required_amount : Rat
  vip_threshold_amount : Rat
  postbacks_chat_id : Option String
  send_postbacks_registration : Bool
  send_postbacks_deposit : Bool
  send_postbacks_withdraw : Bool
deriving DecidableEq

/-- Column defaults of `bot/models/settings.py` (used when the lazy
`Settings(id=1)` row is created on first access). -/
def defaultSettings : Settings :=
  { ref_link := none
    deposit_link := none
    channel_id := none
    channel_url := none
    support_url := none
    require_subscription := true
    require_deposit := true
    deposit_required_amount := 0
    vip_threshold_amount := 0
    postbacks_chat_id := none
    send_postbacks_registration := false
    send_postbacks_deposit := false
    send_postbacks_withdraw := false }

/-- The persistent store: the three tables plus primary-key counters. -/
structure Db where
  users : List User
  deposits : List DepositRow
  settings : Option Settings
  nextUserId : Nat
  nextDepId : Nat
deriving DecidableEq

/-- Python truthiness of an optional string: `None` and the empty string are
falsy.  Mirrors guards such as `if not trader_id` and `if not channel_id`. -/
def strFalsy : Option String → Bool
  | none => true
  | some s => s == ""

/-- `select(User).where(User.telegram_id == tg)` followed by
`scalar_one_or_none()`. -/
def findU (l : List User) (tg : Int) : Option User :=
  l.find? (fun u => u.telegram_id == tg)

/-- Lookup of the account row keyed by the external id. -/
def findUserByTg (db : Db) (tg : Int) : Option User :=
  findU db.users tg

/-- An ORM UPDATE of the row with primary key `uid`. -/
def updateUserById (db : Db) (uid : Nat) (f : User → User) : Db :=
  { db with users := db.users.map (fun w => if w.id == uid then f w else w) }

/-- The persist block of step A of `_run_flow` (lines 722-728):
`session.get(User, user.id)` then `db_user.is_subscribed = True; commit`. -/
def setSubscribedById (db : Db) (uid : Nat) : Db :=
  updateUserById db uid (fun w => { w with is_subscribed := true })

/-- The grant block of `_run_flow` (lines 803-810): set
`has_basic_access = True` and, when `is_vip_now`, also `is_vip = True`. -/
def grantById (db : Db) (uid : Nat) (vipNow : Bool) : Db :=
  updateUserById db uid
    (fun w => { w with has_basic_access := true, is_vip := w.is_vip || vipNow })

/-- A freshly constructed `User(telegram_id=..., username=...)`: every flag
column defaults to false, `language` and `trader_id` to NULL. -/
def freshUser (uid : Nat) (tg : Int) (username : Option String) : User :=
  { id := uid
    telegram_id := tg
    username := username
    language := none
    is_subscribed := false
    is_registered := false
    has_basic_access := false
    is_vip := false
    trader_id := none }

/-- `_get_or_create_user` (`main_menu.py` lines 332-356): resolve the row by
telegram id, create it with default flags when absent, and refresh the
stored username when a truthy different one is supplied. -/
def getOrCreateUser (db : Db) (tg : Int) (username : Option String) :
    User × Db :=
  match findUserByTg db tg with
  | some u =>
      if !strFalsy username && username != u.username then
        ({ u with username := username },
         updateUserById db u.id (fun w => { w with username := username }))
      else (u, db)
  | none =>
      let u := freshUser db.nextUserId tg username
      (u, { db with users := db.users ++ [u], nextUserId := db.nextUserId + 1 })

/-- `_get_settings` (`main_menu.py`) and `get_or_create_settings`
(`postback_app.py`): read the singleton row, creating it with column
defaults when absent. -/
def getSettings (db : Db) : Settings × Db :=
  match db.settings with
  | some s => (s, db)
  | none => (defaultSettings, { db with settings := some defaultSettings })

/-- `_get_total_deposit` / the SUM query of the deposit handler: the sum of
the amounts of all deposit rows owned by `uid`. -/
def totalDeposit (deps : List DepositRow) (uid : Nat) : Rat :=
  (deps.filter (fun d => d.user_id == uid)).foldl (fun a d => a + d.amount) 0

/-- `_is_subscribed_via_api` (`main_menu.py` lines 396-404): with a falsy
`channel_id` the check returns True immediately; otherwise the result is
whatever the live platform query says (`oracle` bundles "the call succeeded
and the member status is member/administrator/creator"; a failed call is
`oracle = false`, i.e. fail-closed). -/
def isSubscribedViaApi (channel_id : Option String) (oracle : Bool) : Bool :=
  if strFalsy channel_id then true else oracle

/-- Observable actions of one engine invocation, in program order: store
reads and writes, the live subscription check, and each outbound message. -/
inductive Ev where
  | readUser
  | readSettings
  | subCheck (ok : Bool)
  | writeSubscribed
  | promptSubscription
  | configErrorReg
  | promptRegistration
  | readDeposits
  | configErrorDep
  | promptDeposit (required current : Rat)
  | writeAccess (vip : Bool)
  | promptAccessGranted (vip : Bool)
  | openMiniapp
deriving DecidableEq

/-- `configErrorReg` and `configErrorDep` both render the same
`CONFIG_ERROR_TEXT`; the constructor records only which source branch
emitted it (registration step, lines 747-749, versus deposit step, lines
773-781). -/
def isPromptEv : Ev → Bool
  | .promptSubscription => true
  | .configErrorReg => true
  | .promptRegistration => true
  | .configErrorDep => true
  | .promptDeposit _ _ => true
  | .promptAccessGranted _ => true
  | .openMiniapp => true
  | _ => false

/-- Result of one `_run_flow` invocation: the store afterwards and the trace
of observable actions. -/
structure FlowResult where
  db : Db
  trace : List Ev
deriving DecidableEq

/-- Steps B, C, D of `_run_flow` (`main_menu.py` lines 745-830), entered
with the in-memory account snapshot `user` as it stands after the
subscription step.  The total deposit sum is fetched on entering step C
(line 770) before the `require_deposit` test; config errors stop the
invocation; the grant block persists `has_basic_access` (and `is_vip` when
`is_vip_now`) before the access-granted message is sent. -/
def flowAfterSub (user : User) (settings : Settings) (db : Db) : FlowResult :=
  if !user.is_registered && strFalsy user.trader_id then
    if strFalsy settings.ref_link then
      { db := db, trace := [.configErrorReg] }
    else
      { db := db, trace := [.promptRegistration] }
  else
    let requiredDep := settings.deposit_required_amount
    let needDep := settings.require_deposit
    let total := totalDeposit db.deposits user.id
    if needDep && decide (requiredDep ≤ 0) then
      { db := db, trace := [.readDeposits, .configErrorDep] }
    else if needDep && decide (total < requiredDep) then
      if strFalsy settings.deposit_link then
        { db := db, trace := [.readDeposits, .configErrorDep] }
      else
        { db := db, trace := [.readDeposits, .promptDeposit requiredDep total] }
    else
      let vipThr := settings.vip_threshold_amount
      let isVipNow := user.is_vip || (decide (0 < vipThr) && decide (vipThr ≤ total))
      { db := grantById db user.id isVipNow,
        trace := [.readDeposits, .readUser, .writeAccess isVipNow,
                  .promptAccessGranted isVipNow] }

/-- `_run_flow` (`main_menu.py` lines 707-830).  Resolve or create the
account, load settings, short-circuit to the deliver-destination action when
`has_basic_access` or `is_vip` already holds; otherwise run step A
(subscription): when the step is enforced and the snapshot is unsubscribed,
consult the live check, persist `is_subscribed = true` on success and update
the in-memory snapshot in place, then either stop with the subscription
prompt or continue into `flowAfterSub` with that snapshot. -/
def runFlow (db0 : Db) (tg : Int) (oracle : Bool) : FlowResult :=
  let user := (getOrCreateUser db0 tg none).1
  let db1 := (getOrCreateUser db0 tg none).2
  let settings := (getSettings db1).1
  let db2 := (getSettings db1).2
  if user.has_basic_access || user.is_vip then
    { db := db2, trace := [.readUser, .readSettings, .openMiniapp] }
  else
    let needCheck := settings.require_subscription && !user.is_subscribed
    let subOk := isSubscribedViaApi settings.channel_id oracle
    let doPersist := needCheck && subOk
    let user1 := if doPersist then { user with is_subscribed := true } else user
    let db3 := if doPersist then setSubscribedById db2 user.id else db2
    let evs1 : List Ev :=
      if needCheck then
        if subOk then [.subCheck true, .readUser, .writeSubscribed]
        else [.subCheck false]
      else []
    if settings.require_subscription && !user1.is_subscribed then
      { db := db3, trace := [.readUser, .readSettings] ++ evs1 ++ [.promptSubscription] }
    else
      let r := flowAfterSub user1 settings db3
      { db := r.db, trace := [.readUser, .readSettings] ++ evs1 ++ r.trace }

/-- `run_access_flow_for_user` (`main_menu.py` line 562): the public
`advance` entry point simply runs `_run_flow` with chat id = telegram id. -/
def runAccessFlowForUser (db : Db) (tg : Int) (oracle : Bool) : FlowResult :=
  runFlow db tg oracle

/-- `notify_vip_granted` (`main_menu.py` lines 606-624): read the language,
resolve or create the account (plain `_get_or_create_user(tg_id)`, no
username), and send the VIP-granted message built from that account.  The
returned `User` is the account the message markup was built from. -/
def notifyVipGranted (db : Db) (tg : Int) : Db × User :=
  let p := getOrCreateUser db tg none
  (p.2, p.1)

/-- Value of a list of decimal digit characters. -/
def digitsVal (cs : List Char) : Nat :=
  cs.foldl (fun a c => a * 10 + (c.toNat - 48)) 0

/-- Nonempty all-digit strings only. -/
def natOfDigits? (cs : List Char) : Option Nat :=
  if cs ≠ [] && cs.all Char.isDigit then some (digitsVal cs) else none

/-- Leading and trailing whitespace stripping, as `int()` and `float()`
perform on their argument. -/
def trimChars (cs : List Char) : List Char :=
  ((cs.dropWhile Char.isWhitespace).reverse.dropWhile Char.isWhitespace).reverse

/-- Python `int(str(x))` as used on click ids: optional surrounding
whitespace, an optional sign, then decimal digits.  (Digit-group
underscores and non-ASCII digits, which CPython also accepts, are not
modelled.) -/
def pyParseInt (s : String) : Option Int :=
  match trimChars s.toList with
  | '+' :: rest => (natOfDigits? rest).map (fun n => (n : Int))
  | '-' :: rest => (natOfDigits? rest).map (fun n => -(n : Int))
  | cs => (natOfDigits? cs).map (fun n => (n : Int))

/-- Unsigned decimal literal: digits, optionally with one dot, with at
least one digit overall ("1", "1.5", "1.", ".5").  Exponents, "inf", "nan"
and digit-group underscores are not modelled. -/
def parseUnsignedDecimal? (cs : List Char) : Option Rat :=
  let intPart := cs.takeWhile Char.isDigit
  let rest := cs.dropWhile Char.isDigit
  match rest with
  | [] => if intPart = [] then none else some ((digitsVal intPart : Int) : Rat)
  | '.' :: fracPart =>
      if fracPart.all Char.isDigit && (intPart ≠ [] || fracPart ≠ []) then
        some (mkRat (Int.ofNat (digitsVal intPart * 10 ^ fracPart.length + digitsVal fracPart))
          (10 ^ fracPart.length))
      else none
  | _ => none

/-- Python `float(str(x))` as used on amounts. -/
def pyParseFloat (s : String) : Option Rat :=
  match trimChars s.toList with
  | '+' :: rest => parseUnsignedDecimal? rest
  | '-' :: rest => (parseUnsignedDecimal? rest).map (fun q => -q)
  | cs => parseUnsignedDecimal? cs

/-- `str(sumdep_raw).replace(",", ".")` before the float conversion: every
comma becomes a dot (the pattern is a single character, so a character map
is exact). -/
def pyCommaToDot (s : String) : String :=
  String.mk (s.toList.map (fun c => if c == ',' then '.' else c))

/-- Path-prefix test used to model the `/postback/{tail}` catch-all route. -/
def charsPre : List Char → List Char → Bool
  | [], _ => true
  | _ :: _, [] => false
  | c :: cs, d :: ds => c == d && charsPre cs ds

/-- `path` lies under the given prefix. -/
def strStarts (s pre : String) : Bool :=
  charsPre pre.toList s.toList

/-- The merged request parameters as assembled by `extract_params` (query
string, then form body, then JSON body; the merge itself is data plumbing
and not modelled), plus the two places a shared secret can be supplied. -/
structure Req where
  secret : Option String
  hdrSecret : Option String
  trader_id : Option String
  click_id : Option String
  sumdep : Option String
  wdr_sum : Option String
deriving DecidableEq

/-- `check_secret` (`postback_app.py` lines 53-66): an empty configured
secret disables the check; otherwise either the `secret` query parameter or
the `X-Postback-Secret` header must equal it. -/
def checkSecret (cfg : String) (q h : Option String) : Bool :=
  if cfg = "" then true
  else q == some cfg || h == some cfg

/-- HTTP responses of the postback service, with their status and body. -/
inductive Resp where
  | missingParams
  | badClickId
  | badSumdep
  | badWdrSum
  | okResp
  | okCatchAll
  | okRoot
  | forbidden
  | serverError
  | notFound
deriving DecidableEq

def Resp.status : Resp → Nat
  | .forbidden => 403
  | .serverError => 500
  | .notFound => 404
  | _ => 200

def Resp.body : Resp → String
  | .missingParams => "MISSING_PARAMS"
  | .badClickId => "BAD_CLICK_ID"
  | .badSumdep => "BAD_SUMDEP"
  | .badWdrSum => "BAD_WDR_SUM"
  | .okResp => "OK"
  | .okCatchAll => "OK (catch-all)"
  | .okRoot => "\x7b\"status\":\"ok\",\"service\":\"postbacks\"\x7d"
  | .forbidden => "Forbidden"
  | .serverError => "Internal Server Error"
  | .notFound => "Not Found"

/-- `postback_registration` (`postback_app.py` lines 217-272): secret
check, truthiness guards, click-id parse; then resolve or create the
account, unconditionally overwrite `trader_id` with the incoming value, set
`is_registered`, commit; then run the access flow (errors swallowed) and
forward the group notification (whose lazy settings read may create the
settings row). -/
def postbackRegistration (cfg : String) (req : Req) (oracle : Bool) (db : Db) :
    Db × Resp :=
  if !checkSecret cfg req.secret req.hdrSecret then (db, .forbidden)
  else if strFalsy req.trader_id || strFalsy req.click_id then (db, .missingParams)
  else
    match pyParseInt (req.click_id.getD "") with
    | none => (db, .badClickId)
    | some tg =>
        let db1 :=
          match findUserByTg db tg with
          | some u =>
              updateUserById db u.id
                (fun w => { w with trader_id := req.trader_id, is_registered := true })
          | none =>
              let u := { freshUser db.nextUserId tg none with
                           trader_id := req.trader_id, is_registered := true }
              { db with users := db.users ++ [u], nextUserId := db.nextUserId + 1 }
        let db2 := (runFlow db1 tg oracle).db
        let db3 := (getSettings db2).2
        (db3, .okResp)

/-- Result of `_handle_deposit_common`: the store afterwards, the HTTP
response, and whether `notify_vip_granted` was invoked (which happens
exactly when this call flagged `became_vip`). -/
structure HandlerResult where
  db : Db
  resp : Resp
  notifiedVip : Bool
deriving DecidableEq

/-- `_handle_deposit_common` (`postback_app.py` lines 279-372), shared by
`/postback/first_deposit` and `/postback/redeposit`.  After the guards the
session resolves the account; when it is absent the code constructs
`User(telegram_id=tg)` and immediately builds
`Deposit(user_id=user.id, ...)` without flushing first — SQLAlchemy assigns
primary keys only at flush, so `user.id` is still None there, and the
autoflush triggered by the SUM query then violates the NOT NULL constraint
on `deposits.user_id`: the request fails with a server error and the
transaction rolls back with nothing persisted.  For an existing account the
handler sets `trader_id` when it was unset, appends the deposit row,
recomputes the total (including the new row), lazily creates settings, sets
`is_vip` when the threshold is strictly positive, reached, and the account
was not yet VIP, commits, runs the access flow, invokes
`notify_vip_granted` when the account just became VIP, and forwards the
group notification. -/
def handleDepositCommon (cfg : String) (req : Req) (oracle : Bool) (db : Db) :
    HandlerResult :=
  if !checkSecret cfg req.secret req.hdrSecret then
    { db := db, resp := .forbidden, notifiedVip := false }
  else if strFalsy req.trader_id || strFalsy req.click_id || req.sumdep == none then
    { db := db, resp := .missingParams, notifiedVip := false }
  else
    match pyParseInt (req.click_id.getD "") with
    | none => { db := db, resp := .badClickId, notifiedVip := false }
    | some tg =>
        match pyParseFloat (pyCommaToDot (req.sumdep.getD "")) with
        | none => { db := db, resp := .badSumdep, notifiedVip := false }
        | some amt =>
            match findUserByTg db tg with
            | none =>
                { db := db, resp := .serverError, notifiedVip := false }
            | some u =>
                let newTrader :=
                  if strFalsy u.trader_id then req.trader_id else u.trader_id
                let newDep : DepositRow :=
                  { id := db.nextDepId, user_id := u.id, amount := amt }
                let deps1 := db.deposits ++ [newDep]
                let total := totalDeposit deps1 u.id
                let s := db.settings.getD defaultSettings
                let vipThr := s.vip_threshold_amount
                let becameVip :=
                  decide (0 < vipThr) && decide (vipThr ≤ total) && !u.is_vip
                let db1 : Db :=
                  { updateUserById db u.id
                      (fun w => { w with
                          trader_id := newTrader,
                          is_vip := w.is_vip || becameVip }) with
                    deposits := deps1,
                    settings := some s,
                    nextDepId := db.nextDepId + 1 }
                let db2 := (runFlow db1 tg oracle).db
                let db3 := if becameVip then (notifyVipGranted db2 tg).1 else db2
                let db4 := (getSettings db3).2
                { db := db4, resp := .okResp, notifiedVip := becameVip }

/-- `postback_withdraw` (`postback_app.py` lines 391-427): guards only, no
ledger mutation beyond the lazy settings read of the group notification. -/
def postbackWithdraw (cfg : String) (req : Req) (db : Db) : Db × Resp :=
  if !checkSecret cfg req.secret req.hdrSecret then (db, .forbidden)
  else if strFalsy req.trader_id || strFalsy req.click_id || req.wdr_sum == none then
    (db, .missingParams)
  else
    match pyParseInt (req.click_id.getD "") with
    | none => (db, .badClickId)
    | some _ =>
        match pyParseFloat (pyCommaToDot (req.wdr_sum.getD "")) with
        | none => (db, .badWdrSum)
        | some _ => ((getSettings db).2, .okResp)

/-- FastAPI routing of `postback_app.py`: the four exact `/postback/...`
routes, the liveness root, and the `/postback/{tail}` catch-all registered
last (lines 434-442), which logs the parameters and answers
"OK (catch-all)" with no secret check and no store access. -/
def postbackService (cfg : String) (path : String) (req : Req) (oracle : Bool)
    (db : Db) : Db × Resp :=
  if path == "/postback/registration" then postbackRegistration cfg req oracle db
  else if path == "/postback/first_deposit" then
    let r := handleDepositCommon cfg req oracle db
    (r.db, r.resp)
  else if path == "/postback/redeposit" then
    let r := handleDepositCommon cfg req oracle db
    (r.db, r.resp)
  else if path == "/postback/withdraw" then postbackWithdraw cfg req db
  else if strStarts path "/postback/" then (db, .okCatchAll)
  else if path == "/" then (db, .okRoot)
  else (db, .notFound)

/-! Basic lemmas about row lookup. -/

theorem findU_cons (x : User) (xs : List User) (tg : Int) :
    findU (x :: xs) tg = if x.telegram_id == tg then some x else findU xs tg := by
  by_cases h : (x.telegram_id == tg) = true <;> simp [findU, List.find?, h]

theorem findU_append_of_some {l1 : List User} {tg : Int} {u : User}
    (h : findU l1 tg = some u) (l2 : List User) :
    findU (l1 ++ l2) tg = some u := by
  induction l1 with
  | nil => simp [findU] at h
  | cons x xs ih =>
      rw [findU_cons] at h
      rw [List.cons_append, findU_cons]
      by_cases hx : (x.telegram_id == tg) = true
      · simpa [hx] using h
      · simp only [hx, if_false] at h ⊢
        exact ih h

theorem findU_map {g : User → User} (hg : ∀ w, (g w).telegram_id = w.telegram_id)
    (l : List User) (tg : Int) :
    findU (l.map g) tg = (findU l tg).map g := by
  induction l with
  | nil => rfl
  | cons x xs ih =>
      rw [List.map_cons, findU_cons, findU_cons, hg x]
      by_cases hx : (x.telegram_id == tg) = true
      · simp [hx]
      · simp [hx, ih]

theorem findUserByTg_update (db : Db) (uid : Nat) (f : User → User)
    (hf : ∀ w, (f w).telegram_id = w.telegram_id) (tg : Int) :
    findUserByTg (updateUserById db uid f) tg
      = (findUserByTg db tg).map (fun w => if w.id == uid then f w else w) := by
  unfold findUserByTg updateUserById
  exact findU_map (fun w => by by_cases h : (w.id == uid) = true <;> simp [h, hf w]) _ _

theorem getSettings_of_some {db : Db} {s : Settings} (h : db.settings = some s) :
    getSettings db = (s, db) := by
  unfold getSettings; rw [h]

theorem getSettings_users (db : Db) : (getSettings db).2.users = db.users := by
  unfold getSettings; cases h : db.settings <;> simp

theorem getSettings_deposits (db : Db) : (getSettings db).2.deposits = db.deposits := by
  unfold getSettings; cases h : db.settings <;> simp

theorem getSettings_isSome (db : Db) :
    (getSettings db).2.settings = some (getSettings db).1 := by
  unfold getSettings; cases h : db.settings <;> simp [h]

theorem findUserByTg_getSettings (db : Db) (tg : Int) :
    findUserByTg (getSettings db).2 tg = findUserByTg db tg := by
  unfold findUserByTg; rw [getSettings_users]

theorem getOrCreateUser_found {db : Db} {tg : Int} {u : User}
    (h : findUserByTg db tg = some u) :
    getOrCreateUser db tg none = (u, db) := by
  unfold getOrCreateUser; rw [h]; rfl

theorem getOrCreateUser_absent {db : Db} {tg : Int}
    (h : findUserByTg db tg = none) :
    getOrCreateUser db tg none =
      (freshUser db.nextUserId tg none,
       { db with users := db.users ++ [freshUser db.nextUserId tg none],
                 nextUserId := db.nextUserId + 1 }) := by
  unfold getOrCreateUser; rw [h]

/-- Claim C1: for an account already holding `has_basic_access` (or
`is_vip`), `advance` (`run_access_flow_for_user` / `_run_flow`) takes the
short-circuit deliver-destination path: it leaves every account row — hence
every one of the flags `is_subscribed`, `is_registered`,
`has_basic_access`, `is_vip` — unchanged, its trace is exactly
read-user, read-settings, open-miniapp (no step prompt, no flag write), and
a repeated call returns the identical result, so repeated calls are
idempotent on the account state. -/
theorem c1_short_circuit (db : Db) (tg : Int) (oracle : Bool) (u : User)
    (hu : findUserByTg db tg = some u)
    (hacc : (u.has_basic_access || u.is_vip) = true) :
    (runFlow db tg oracle).db.users = db.users ∧
    (runFlow db tg oracle).trace = [Ev.readUser, Ev.readSettings, Ev.openMiniapp] ∧
    ∀ oracle2 : Bool, runFlow (runFlow db tg oracle).db tg oracle2 = runFlow db tg oracle := by
  have h1 : getOrCreateUser db tg none = (u, db) := getOrCreateUser_found hu
  have hrun : runFlow db tg oracle =
      { db := (getSettings db).2,
        trace := [Ev.readUser, Ev.readSettings, Ev.openMiniapp] } := by
    unfold runFlow
    rw [h1]
    simp [hacc]
  refine ⟨by rw [hrun]; exact getSettings_users db, by rw [hrun], ?_⟩
  intro oracle2
  have hu2 : findUserByTg (getSettings db).2 tg = some u := by
    rw [findUserByTg_getSettings]; exact hu
  have h2 : getOrCreateUser (getSettings db).2 tg none = (u, (getSettings db).2) :=
    getOrCreateUser_found hu2
  have h3 : getSettings (getSettings db).2 = ((getSettings db).1, (getSettings db).2) :=
    getSettings_of_some (getSettings_isSome db)
  rw [hrun]
  unfold runFlow
  rw [h2]
  simp [h3, hacc]

def c1wUser : User :=
  { id := 1, telegram_id := 5, username := none, language := none,
    is_subscribed := false, is_registered := false, has_basic_access := true,
    is_vip := false, trader_id := none }

def c1wDb : Db :=
  { users := [c1wUser], deposits := [], settings := some defaultSettings,
    nextUserId := 2, nextDepId := 1 }

/-- Witness for C1 at a concrete store. -/
theorem c1_short_circuit_witness :
    (runFlow c1wDb 5 true).db.users = c1wDb.users ∧
    (runFlow c1wDb 5 true).trace = [Ev.readUser, Ev.readSettings, Ev.openMiniapp] ∧
    ∀ oracle2 : Bool, runFlow (runFlow c1wDb 5 true).db 5 oracle2 = runFlow c1wDb 5 true :=
  c1_short_circuit c1wDb 5 true c1wUser (by decide) (by decide)

/-! Structure of the database after the later funnel steps. -/

theorem findUserByTg_setSubscribed (db : Db) (uid : Nat) (tg : Int) :
    findUserByTg (setSubscribedById db uid) tg
      = (findUserByTg db tg).map
          (fun w => if w.id == uid then { w with is_subscribed := true } else w) := by
  unfold setSubscribedById updateUserById findUserByTg
  apply findU_map
  intro w
  by_cases h : (w.id == uid) = true <;> simp [h]

theorem findUserByTg_grant (db : Db) (uid : Nat) (b : Bool) (tg : Int) :
    findUserByTg (grantById db uid b) tg
      = (findUserByTg db tg).map
          (fun w => if w.id == uid then
            { w with has_basic_access := true, is_vip := w.is_vip || b } else w) := by
  unfold grantById updateUserById findUserByTg
  apply findU_map
  intro w
  by_cases h : (w.id == uid) = true <;> simp [h]

theorem flowAfterSub_db_cases (u : User) (s : Settings) (db : Db) :
    (flowAfterSub u s db).db = db ∨
    ∃ b, (flowAfterSub u s db).db = grantById db u.id b := by
  simp only [flowAfterSub]
  repeat' split
  all_goals first
    | (left; rfl)
    | (right; exact ⟨_, rfl⟩)

theorem flowAfterSub_find_pres {α : Type} (proj : User → α)
    (hp : ∀ w b, proj { w with has_basic_access := true, is_vip := w.is_vip || b } = proj w)
    (u : User) (s : Settings) (db : Db) (tg : Int) :
    (findUserByTg (flowAfterSub u s db).db tg).map proj
      = (findUserByTg db tg).map proj := by
  rcases flowAfterSub_db_cases u s db with h | ⟨b, h⟩
  · rw [h]
  · rw [h, findUserByTg_grant]
    cases hf : findUserByTg db tg with
    | none => rfl
    | some w =>
        by_cases hw : (w.id == u.id) = true
        · simp only [Option.map_some', if_pos hw]
          rw [hp w b]
        · simp only [Option.map_some', if_neg hw]

/-- When the subscription step is enforced, the snapshot is unsubscribed
and the live check succeeds, `_run_flow` persists the subscription, updates
the snapshot in place and continues with the later steps. -/
theorem runFlow_subscribe_success (db : Db) (tg : Int) (oracle : Bool)
    (u : User) (s : Settings)
    (hu : findUserByTg db tg = some u)
    (hacc : u.has_basic_access = false) (hvip : u.is_vip = false)
    (hsub : u.is_subscribed = false)
    (hs : db.settings = some s)
    (hreq : s.require_subscription = true)
    (hok : isSubscribedViaApi s.channel_id oracle = true) :
    runFlow db tg oracle =
      { db := (flowAfterSub { u with is_subscribed := true } s
                 (setSubscribedById db u.id)).db,
        trace := Ev.readUser :: Ev.readSettings :: Ev.subCheck true ::
                 Ev.readUser :: Ev.writeSubscribed ::
                 (flowAfterSub { u with is_subscribed := true } s
                    (setSubscribedById db u.id)).trace } := by
  have h1 : getOrCreateUser db tg none = (u, db) := getOrCreateUser_found hu
  have hgs : getSettings db = (s, db) := getSettings_of_some hs
  unfold runFlow
  rw [h1]
  simp [hgs, hacc, hvip, hsub, hreq, hok]

/-- Spec-side reading of C2, modelled from the words of the spec: after
persisting `subscribed = true` the engine re-evaluates from scratch,
re-reading the just-written account row from the store before deciding any
later step — i.e. between `writeSubscribed` and the next user-visible
action the trace holds another `readUser`. -/
def reloadsUserAfterSubscribeWrite (tr : List Ev) : Bool :=
  (((tr.dropWhile (fun e => !(e == Ev.writeSubscribed))).drop 1).takeWhile
      (fun e => !isPromptEv e)).contains Ev.readUser

def c2User : User :=
  { id := 1, telegram_id := 10, username := none, language := none,
    is_subscribed := false, is_registered := false, has_basic_access := false,
    is_vip := false, trader_id := none }

def c2Settings : Settings :=
  { defaultSettings with
    channel_id := some "@ch",
    channel_url := some "https://t.me/ch",
    ref_link := some "https://broker.example/ref" }

def c2Db : Db :=
  { users := [c2User], deposits := [], settings := some c2Settings,
    nextUserId := 2, nextDepId := 1 }

/-- Claim C2, counterexample: a not-yet-subscribed account whose live check
succeeds.  The engine persists the subscription and then goes straight on
to the registration prompt using the in-memory snapshot: between the
`writeSubscribed` commit and the next user-visible action there is no
re-read of the account row and no restart of the evaluation, contradicting
the claim that the funnel is re-evaluated from scratch re-reading the
just-written field from the store. -/
theorem c2_counterexample :
    (runFlow c2Db 10 true).trace
      = [Ev.readUser, Ev.readSettings, Ev.subCheck true, Ev.readUser,
         Ev.writeSubscribed, Ev.promptRegistration] ∧
    reloadsUserAfterSubscribeWrite (runFlow c2Db 10 true).trace = false := by
  constructor <;> decide

/-- Claim C2 as amended: when the subscription step is enforced and the
live check succeeds for a not-yet-subscribed account, the engine persists
`subscribed = true` and then continues the same invocation on the in-memory
snapshot updated in place (`user.is_subscribed = True`), without re-reading
the row; because the write and the snapshot agree, this is extensionally
the same as re-evaluating from scratch on the post-write store: the final
store and the emitted user-visible actions coincide with those of a fresh
`_run_flow` on the store with the subscription already persisted. -/
theorem c2_amended (db : Db) (tg : Int) (oracle : Bool) (u : User) (s : Settings)
    (hu : findUserByTg db tg = some u)
    (hacc : u.has_basic_access = false) (hvip : u.is_vip = false)
    (hsub : u.is_subscribed = false)
    (hs : db.settings = some s)
    (hreq : s.require_subscription = true)
    (hok : isSubscribedViaApi s.channel_id oracle = true) :
    (findUserByTg (runFlow db tg oracle).db tg).map User.is_subscribed = some true ∧
    (runFlow db tg oracle).db = (runFlow (setSubscribedById db u.id) tg oracle).db ∧
    (runFlow db tg oracle).trace.filter isPromptEv
      = (runFlow (setSubscribedById db u.id) tg oracle).trace.filter isPromptEv := by
  have hfindS : findUserByTg (setSubscribedById db u.id) tg
      = some { u with is_subscribed := true } := by
    rw [findUserByTg_setSubscribed, hu]
    simp
  have h2 : getOrCreateUser (setSubscribedById db u.id) tg none
      = ({ u with is_subscribed := true }, setSubscribedById db u.id) :=
    getOrCreateUser_found hfindS
  have hsS : (setSubscribedById db u.id).settings = some s := hs
  have hgsS : getSettings (setSubscribedById db u.id)
      = (s, setSubscribedById db u.id) := getSettings_of_some hsS
  have hrunL := runFlow_subscribe_success db tg oracle u s hu hacc hvip hsub hs hreq hok
  have hrunR : runFlow (setSubscribedById db u.id) tg oracle =
      { db := (flowAfterSub { u with is_subscribed := true } s
                 (setSubscribedById db u.id)).db,
        trace := Ev.readUser :: Ev.readSettings ::
                 (flowAfterSub { u with is_subscribed := true } s
                    (setSubscribedById db u.id)).trace } := by
    unfold runFlow
    rw [h2]
    simp [hgsS, hacc, hvip, hreq]
  refine ⟨?_, ?_, ?_⟩
  · rw [hrunL]
    show (findUserByTg (flowAfterSub _ _ _).db tg).map User.is_subscribed = some true
    rw [flowAfterSub_find_pres User.is_subscribed (fun w b => rfl)]
    rw [hfindS]
    rfl
  · rw [hrunL, hrunR]
  · rw [hrunL, hrunR]
    simp [List.filter, isPromptEv]

/-- Witness for the amended C2 at a concrete store. -/
theorem c2_amended_witness :
    (findUserByTg (runFlow c2Db 10 true).db 10).map User.is_subscribed = some true ∧
    (runFlow c2Db 10 true).db = (runFlow (setSubscribedById c2Db 1) 10 true).db ∧
    (runFlow c2Db 10 true).trace.filter isPromptEv
      = (runFlow (setSubscribedById c2Db 1) 10 true).trace.filter isPromptEv :=
  c2_amended c2Db 10 true c2User c2Settings (by decide) (by decide) (by decide)
    (by decide) rfl (by decide) (by decide)

/-! Trace shape of the later steps. -/

theorem flowAfterSub_unregistered (u : User) (s : Settings) (db : Db)
    (h : (!u.is_registered && strFalsy u.trader_id) = true) :
    flowAfterSub u s db = { db := db, trace := [Ev.configErrorReg] } ∨
    flowAfterSub u s db = { db := db, trace := [Ev.promptRegistration] } := by
  unfold flowAfterSub
  rw [if_pos h]
  by_cases hr : strFalsy s.ref_link = true
  · left; simp [hr]
  · right; simp [hr]

theorem flowAfterSub_regSat (u : User) (s : Settings) (db : Db)
    (h : (!u.is_registered && strFalsy u.trader_id) = false) :
    Ev.promptRegistration ∉ (flowAfterSub u s db).trace ∧
    Ev.configErrorReg ∉ (flowAfterSub u s db).trace := by
  simp only [flowAfterSub, h]
  constructor <;> (repeat' split) <;> simp_all

theorem flowAfterSub_no_promptSub (u : User) (s : Settings) (db : Db) :
    Ev.promptSubscription ∉ (flowAfterSub u s db).trace := by
  simp only [flowAfterSub]
  repeat' split
  all_goals simp

def c3Settings : Settings :=
  { defaultSettings with
    ref_link := some "https://broker.example/ref" }

def c3User : User :=
  { id := 1, telegram_id := 10, username := none, language := none,
    is_subscribed := false, is_registered := false, has_basic_access := false,
    is_vip := false, trader_id := none }

def c3Db : Db :=
  { users := [c3User], deposits := [], settings := some c3Settings,
    nextUserId := 2, nextDepId := 1 }

/-- Claim C3, counterexample: the subscription step is enforced, the
account is unsubscribed and `channel_id` is NULL (unconfigured); the live
check oracle even reports "not a member" (false).  `_is_subscribed_via_api`
nonetheless returns True (`if not channel_id: return True`), so `advance`
persists `subscribed = true` and moves on to the registration prompt — the
opposite of the claimed hard stop. -/
theorem c3_counterexample :
    (runFlow c3Db 10 false).trace
      = [Ev.readUser, Ev.readSettings, Ev.subCheck true, Ev.readUser,
         Ev.writeSubscribed, Ev.promptRegistration] ∧
    (findUserByTg (runFlow c3Db 10 false).db 10).map User.is_subscribed
      = some true := by
  constructor <;> decide

/-- Claim C3 as amended: for an account with `require_subscription` enabled
and `is_subscribed = false`, a NULL (or empty) `channel_id` makes the
subscription step fail open, not closed: the live check is treated as
successful regardless of the actual platform answer, `advance` persists
`subscribed = true`, and the invocation progresses past the subscription
step (no subscription prompt is presented). -/
theorem c3_amended (db : Db) (tg : Int) (oracle : Bool) (u : User) (s : Settings)
    (hu : findUserByTg db tg = some u)
    (hacc : u.has_basic_access = false) (hvip : u.is_vip = false)
    (hsub : u.is_subscribed = false)
    (hs : db.settings = some s)
    (hreq : s.require_subscription = true)
    (hch : strFalsy s.channel_id = true) :
    (findUserByTg (runFlow db tg oracle).db tg).map User.is_subscribed = some true ∧
    Ev.writeSubscribed ∈ (runFlow db tg oracle).trace ∧
    Ev.promptSubscription ∉ (runFlow db tg oracle).trace := by
  have hok : isSubscribedViaApi s.channel_id oracle = true := by
    unfold isSubscribedViaApi
    rw [if_pos hch]
  have hrun := runFlow_subscribe_success db tg oracle u s hu hacc hvip hsub hs hreq hok
  have hfindS : findUserByTg (setSubscribedById db u.id) tg
      = some { u with is_subscribed := true } := by
    rw [findUserByTg_setSubscribed, hu]
    simp
  refine ⟨?_, ?_, ?_⟩
  · rw [hrun]
    show (findUserByTg (flowAfterSub _ _ _).db tg).map User.is_subscribed = some true
    rw [flowAfterSub_find_pres User.is_subscribed (fun w b => rfl), hfindS]
    rfl
  · rw [hrun]
    simp
  · rw [hrun]
    simp only [List.mem_cons]
    intro hmem
    rcases hmem with h | h | h | h | h | h
    any_goals exact Ev.noConfusion h
    exact flowAfterSub_no_promptSub _ _ _ h

/-- Witness for the amended C3 at a concrete store. -/
theorem c3_amended_witness :
    (findUserByTg (runFlow c3Db 10 false).db 10).map User.is_subscribed = some true ∧
    Ev.writeSubscribed ∈ (runFlow c3Db 10 false).trace ∧
    Ev.promptSubscription ∉ (runFlow c3Db 10 false).trace :=
  c3_amended c3Db 10 false c3User c3Settings (by decide) (by decide) (by decide)
    (by decide) rfl (by decide) (by decide)

/-- Closed form of `_run_flow` for an existing account: the short-circuit
branch, the subscribe-then-continue branch, the subscription-prompt branch,
and the plain continue branch. -/
theorem runFlow_found (db : Db) (tg : Int) (oracle : Bool) (u : User)
    (hu : findUserByTg db tg = some u) :
    runFlow db tg oracle =
      (let s := (getSettings db).1
       let d := (getSettings db).2
       if (u.has_basic_access || u.is_vip) = true then
         { db := d, trace := [Ev.readUser, Ev.readSettings, Ev.openMiniapp] }
       else if (s.require_subscription && !u.is_subscribed &&
                isSubscribedViaApi s.channel_id oracle) = true then
         { db := (flowAfterSub { u with is_subscribed := true } s
                    (setSubscribedById d u.id)).db,
           trace := Ev.readUser :: Ev.readSettings :: Ev.subCheck true ::
                    Ev.readUser :: Ev.writeSubscribed ::
                    (flowAfterSub { u with is_subscribed := true } s
                       (setSubscribedById d u.id)).trace }
       else if (s.require_subscription && !u.is_subscribed) = true then
         { db := d,
           trace := [Ev.readUser, Ev.readSettings, Ev.subCheck false,
                     Ev.promptSubscription] }
       else
         { db := (flowAfterSub u s d).db,
           trace := Ev.readUser :: Ev.readSettings :: (flowAfterSub u s d).trace }) := by
  have h1 : getOrCreateUser db tg none = (u, db) := getOrCreateUser_found hu
  unfold runFlow
  rw [h1]
  by_cases hacc : (u.has_basic_access || u.is_vip) = true
  · simp [hacc]
  · by_cases hsu : ((getSettings db).1.require_subscription && !u.is_subscribed) = true
    · by_cases hok : isSubscribedViaApi (getSettings db).1.channel_id oracle = true
      · simp [hacc, hsu, hok]
      · simp [hacc, hsu, hok]
    · simp [hacc, hsu]

/-- For an unregistered account (flag false, falsy trader id) that is not
short-circuited, an `advance` invocation ends in one of five outcomes, none
of which reaches the grant step. -/
theorem runFlow_unregistered_cases (db : Db) (tg : Int) (oracle : Bool) (u : User)
    (hu : findUserByTg db tg = some u)
    (hreg : u.is_registered = false) (htr : strFalsy u.trader_id = true)
    (hacc : (u.has_basic_access || u.is_vip) = false) :
    runFlow db tg oracle =
      { db := setSubscribedById (getSettings db).2 u.id,
        trace := [Ev.readUser, Ev.readSettings, Ev.subCheck true, Ev.readUser,
                  Ev.writeSubscribed, Ev.configErrorReg] } ∨
    runFlow db tg oracle =
      { db := setSubscribedById (getSettings db).2 u.id,
        trace := [Ev.readUser, Ev.readSettings, Ev.subCheck true, Ev.readUser,
                  Ev.writeSubscribed, Ev.promptRegistration] } ∨
    runFlow db tg oracle =
      { db := (getSettings db).2,
        trace := [Ev.readUser, Ev.readSettings, Ev.subCheck false,
                  Ev.promptSubscription] } ∨
    runFlow db tg oracle =
      { db := (getSettings db).2,
        trace := [Ev.readUser, Ev.readSettings, Ev.configErrorReg] } ∨
    runFlow db tg oracle =
      { db := (getSettings db).2,
        trace := [Ev.readUser, Ev.readSettings, Ev.promptRegistration] } := by
  have hrf := runFlow_found db tg oracle u hu
  have hcond : (!u.is_registered && strFalsy u.trader_id) = true := by
    simp [hreg, htr]
  have hcond1 : (!(({ u with is_subscribed := true } : User).is_registered) &&
      strFalsy ({ u with is_subscribed := true } : User).trader_id) = true :=
    hcond
  rw [hrf]
  by_cases hP : ((getSettings db).1.require_subscription && !u.is_subscribed &&
      isSubscribedViaApi (getSettings db).1.channel_id oracle) = true
  · rcases flowAfterSub_unregistered { u with is_subscribed := true }
        (getSettings db).1 (setSubscribedById (getSettings db).2 u.id)
        hcond1 with hfl | hfl
    · left
      simp [hacc, hP, hfl]
    · right; left
      simp [hacc, hP, hfl]
  · by_cases hS : ((getSettings db).1.require_subscription && !u.is_subscribed) = true
    · have hapi : isSubscribedViaApi (getSettings db).1.channel_id oracle = false := by
        rw [hS] at hP
        simpa using hP
      right; right; left
      simp [hacc, hP, hS, hapi]
    · rcases flowAfterSub_unregistered u (getSettings db).1 (getSettings db).2
          hcond with hfl | hfl
      · right; right; right; left
        simp [hacc, hP, hS, hfl]
      · right; right; right; right
        simp [hacc, hP, hS, hfl]

/-- Claim C5: the registration step is enforced unconditionally.  Part one:
for every account with `is_registered = false` and a falsy (NULL) trader
id, under every settings configuration (including both requirement toggles
off), `advance` never reaches the grant step — it emits no access write and
no access-granted message — and leaves `has_basic_access` exactly as it
was.  Part two: the step counts as satisfied when `is_registered` is true
OR `trader_id` holds a nonempty value: an invocation that gets past the
subscription step then never presents the registration prompt nor the
registration-step configuration error. -/
theorem c5_registration_unconditional :
    (∀ (db : Db) (tg : Int) (oracle : Bool) (u : User),
      findUserByTg db tg = some u →
      u.is_registered = false → strFalsy u.trader_id = true →
      (∀ b : Bool, Ev.writeAccess b ∉ (runFlow db tg oracle).trace ∧
                   Ev.promptAccessGranted b ∉ (runFlow db tg oracle).trace) ∧
      (findUserByTg (runFlow db tg oracle).db tg).map User.has_basic_access
        = some u.has_basic_access) ∧
    (∀ (db : Db) (tg : Int) (oracle : Bool) (u : User) (s : Settings),
      findUserByTg db tg = some u → db.settings = some s →
      u.has_basic_access = false → u.is_vip = false →
      (u.is_registered || !strFalsy u.trader_id) = true →
      (s.require_subscription = false ∨ u.is_subscribed = true ∨
        isSubscribedViaApi s.channel_id oracle = true) →
      Ev.promptRegistration ∉ (runFlow db tg oracle).trace ∧
      Ev.configErrorReg ∉ (runFlow db tg oracle).trace) := by
  constructor
  · intro db tg oracle u hu hreg htr
    have hfd : findUserByTg (getSettings db).2 tg = some u := by
      rw [findUserByTg_getSettings]; exact hu
    have hfdS : findUserByTg (setSubscribedById (getSettings db).2 u.id) tg
        = some { u with is_subscribed := true } := by
      rw [findUserByTg_setSubscribed, hfd]
      simp
    by_cases hacc : (u.has_basic_access || u.is_vip) = true
    · have hres : runFlow db tg oracle =
          { db := (getSettings db).2,
            trace := [Ev.readUser, Ev.readSettings, Ev.openMiniapp] } := by
        rw [runFlow_found db tg oracle u hu]
        simp [hacc]
      rw [hres]
      exact ⟨fun b => ⟨by simp, by simp⟩, by simp [hfd]⟩
    · have hacc2 : (u.has_basic_access || u.is_vip) = false := by
        revert hacc; cases (u.has_basic_access || u.is_vip) <;> simp
      rcases runFlow_unregistered_cases db tg oracle u hu hreg htr hacc2 with
        hres | hres | hres | hres | hres <;>
        rw [hres] <;>
        exact ⟨fun b => ⟨by simp, by simp⟩, by simp [hfd, hfdS]⟩
  · intro db tg oracle u s hu hs hacc hvip hsat hpass
    have hgs : getSettings db = (s, db) := getSettings_of_some hs
    have hcond : (!u.is_registered && strFalsy u.trader_id) = false := by
      cases hb : u.is_registered with
      | true => simp [hb]
      | false =>
          rw [hb] at hsat
          simp at hsat
          simp [hsat]
    have hcond1 : (!(({ u with is_subscribed := true } : User).is_registered) &&
        strFalsy ({ u with is_subscribed := true } : User).trader_id) = false :=
      hcond
    have hacc2 : (u.has_basic_access || u.is_vip) = false := by
      simp [hacc, hvip]
    have hrf := runFlow_found db tg oracle u hu
    rw [hrf]
    simp only [hgs]
    by_cases hP : (s.require_subscription && !u.is_subscribed &&
        isSubscribedViaApi s.channel_id oracle) = true
    · have hr := flowAfterSub_regSat { u with is_subscribed := true } s
        (setSubscribedById db u.id) hcond1
      simp [hacc2, hP, hr.1, hr.2]
    · by_cases hS : (s.require_subscription && !u.is_subscribed) = true
      · exfalso
        rw [hS] at hP
        rcases hpass with hp1 | hp2 | hp3
        · rw [hp1] at hS
          simp at hS
        · rw [hp2] at hS
          simp at hS
        · rw [hp3] at hP
          simp at hP
      · have hr := flowAfterSub_regSat u s db hcond
        simp [hacc2, hP, hS, hr.1, hr.2]

def c5wSettings : Settings :=
  { defaultSettings with
    require_subscription := false,
    require_deposit := false }

def c5wUserA : User :=
  { id := 1, telegram_id := 7, username := none, language := none,
    is_subscribed := true, is_registered := false, has_basic_access := false,
    is_vip := false, trader_id := none }

def c5wDbA : Db :=
  { users := [c5wUserA], deposits := [], settings := some c5wSettings,
    nextUserId := 2, nextDepId := 1 }

def c5wUserB : User :=
  { id := 1, telegram_id := 8, username := none, language := none,
    is_subscribed := true, is_registered := true, has_basic_access := false,
    is_vip := false, trader_id := none }

def c5wDbB : Db :=
  { users := [c5wUserB], deposits := [], settings := some c5wSettings,
    nextUserId := 2, nextDepId := 1 }

/-- Witness for C5 at two concrete stores, one per part. -/
theorem c5_registration_unconditional_witness :
    ((∀ b : Bool, Ev.writeAccess b ∉ (runFlow c5wDbA 7 true).trace ∧
                  Ev.promptAccessGranted b ∉ (runFlow c5wDbA 7 true).trace) ∧
     (findUserByTg (runFlow c5wDbA 7 true).db 7).map User.has_basic_access
       = some c5wUserA.has_basic_access) ∧
    (Ev.promptRegistration ∉ (runFlow c5wDbB 8 true).trace ∧
     Ev.configErrorReg ∉ (runFlow c5wDbB 8 true).trace) :=
  ⟨c5_registration_unconditional.1 c5wDbA 7 true c5wUserA (by decide) (by decide)
     (by decide),
   c5_registration_unconditional.2 c5wDbB 8 true c5wUserB c5wSettings (by decide)
     rfl (by decide) (by decide) (by decide) (Or.inl (by decide))⟩

def c9Db : Db :=
  { users := [], deposits := [], settings := some defaultSettings,
    nextUserId := 1, nextDepId := 1 }

/-- Claim C9, counterexample: calling `notify_vip_granted` for an identity
with no Account row mutates persisted state — `_get_or_create_user`
(line 610 of `main_menu.py`) inserts a fresh Account row as a side effect,
so the set of Account rows is not left exactly as before the call. -/
theorem c9_counterexample :
    (notifyVipGranted c9Db 5).1 ≠ c9Db ∧
    (notifyVipGranted c9Db 5).1.users.length = 1 ∧ c9Db.users.length = 0 := by
  refine ⟨by decide, rfl, rfl⟩

/-- Claim C9 as amended: `notify_vip_granted` reads fresh state and never
modifies any existing Account row or the Settings row — when the Account
row exists the store is returned unchanged — but for an identity with no
Account row it lazily creates one (default flags, all false) as a side
effect of resolving the user. -/
theorem c9_amended (db : Db) (tg : Int) :
    (∀ u : User, findUserByTg db tg = some u → (notifyVipGranted db tg).1 = db) ∧
    (findUserByTg db tg = none →
      (notifyVipGranted db tg).1 =
        { db with users := db.users ++ [freshUser db.nextUserId tg none],
                  nextUserId := db.nextUserId + 1 }) := by
  constructor
  · intro u hu
    unfold notifyVipGranted
    rw [getOrCreateUser_found hu]
  · intro hn
    unfold notifyVipGranted
    rw [getOrCreateUser_absent hn]

def c9wUser : User :=
  { id := 1, telegram_id := 5, username := none, language := none,
    is_subscribed := false, is_registered := false, has_basic_access := false,
    is_vip := true, trader_id := none }

def c9wDb : Db :=
  { users := [c9wUser], deposits := [], settings := some defaultSettings,
    nextUserId := 2, nextDepId := 1 }

/-- Witness for the amended C9: an existing account leaves the store
unchanged; a missing account gets a fresh row inserted. -/
theorem c9_amended_witness :
    (notifyVipGranted c9wDb 5).1 = c9wDb ∧
    (notifyVipGranted c9Db 5).1 =
      { c9Db with users := c9Db.users ++ [freshUser c9Db.nextUserId 5 none],
                  nextUserId := c9Db.nextUserId + 1 } :=
  ⟨(c9_amended c9wDb 5).1 c9wUser (by decide), (c9_amended c9Db 5).2 (by decide)⟩

/-- Claim C10: every GET or POST request to a path under `/postback/`
other than the four defined endpoints is answered by the catch-all route
with status 200 and body "OK (catch-all)", with the store untouched — and
because the catch-all performs no shared-secret check, this holds for every
configured secret `cfg` and every (absent or wrong) secret in the request. -/
theorem c10_catch_all (cfg path : String) (req : Req) (oracle : Bool) (db : Db)
    (hpre : strStarts path "/postback/" = true)
    (h1 : path ≠ "/postback/registration")
    (h2 : path ≠ "/postback/first_deposit")
    (h3 : path ≠ "/postback/redeposit")
    (h4 : path ≠ "/postback/withdraw") :
    postbackService cfg path req oracle db = (db, Resp.okCatchAll) ∧
    Resp.status Resp.okCatchAll = 200 ∧
    Resp.body Resp.okCatchAll = "OK (catch-all)" := by
  refine ⟨?_, rfl, rfl⟩
  unfold postbackService
  rw [if_neg (by simp [h1]), if_neg (by simp [h2]), if_neg (by simp [h3]),
      if_neg (by simp [h4]), if_pos hpre]

def c10wReq : Req :=
  { secret := none, hdrSecret := none, trader_id := none, click_id := none,
    sumdep := none, wdr_sum := none }

def c10wDb : Db :=
  { users := [], deposits := [], settings := none, nextUserId := 1, nextDepId := 1 }

/-- Witness for C10: a mistyped path under the prefix, with a secret
configured and none supplied, still yields the catch-all 200. -/
theorem c10_catch_all_witness :
    postbackService "s3cr3t" "/postback/reg" c10wReq false c10wDb
      = (c10wDb, Resp.okCatchAll) ∧
    Resp.status Resp.okCatchAll = 200 ∧
    Resp.body Resp.okCatchAll = "OK (catch-all)" :=
  c10_catch_all "s3cr3t" "/postback/reg" c10wReq false c10wDb (by decide)
    (by decide) (by decide) (by decide) (by decide)

/-- Claim C8: for deposit-postback requests that pass the secret check but
carry a missing required parameter, a non-numeric click id, or a
non-numeric amount, `_handle_deposit_common` answers with status 200 and a
body naming the specific problem (MISSING_PARAMS / BAD_CLICK_ID /
BAD_SUMDEP, all distinct, never a server error) and performs no ledger
mutation: the store is returned exactly unchanged, so no Account is
created and no Deposit row is written. -/
theorem c8_soft_reject (cfg : String) (req : Req) (oracle : Bool) (db : Db)
    (hsec : checkSecret cfg req.secret req.hdrSecret = true) :
    ((strFalsy req.trader_id || strFalsy req.click_id || (req.sumdep == none)) = true →
      handleDepositCommon cfg req oracle db =
        { db := db, resp := Resp.missingParams, notifiedVip := false }) ∧
    (∀ c : String,
      (strFalsy req.trader_id || strFalsy req.click_id || (req.sumdep == none)) = false →
      req.click_id = some c → pyParseInt c = none →
      handleDepositCommon cfg req oracle db =
        { db := db, resp := Resp.badClickId, notifiedVip := false }) ∧
    (∀ (c d : String) (n : Int),
      (strFalsy req.trader_id || strFalsy req.click_id || (req.sumdep == none)) = false →
      req.click_id = some c → pyParseInt c = some n →
      req.sumdep = some d → pyParseFloat (pyCommaToDot d) = none →
      handleDepositCommon cfg req oracle db =
        { db := db, resp := Resp.badSumdep, notifiedVip := false }) ∧
    (Resp.status Resp.missingParams = 200 ∧ Resp.status Resp.badClickId = 200 ∧
     Resp.status Resp.badSumdep = 200 ∧
     Resp.body Resp.missingParams = "MISSING_PARAMS" ∧
     Resp.body Resp.badClickId = "BAD_CLICK_ID" ∧
     Resp.body Resp.badSumdep = "BAD_SUMDEP") := by
  refine ⟨?_, ?_, ?_, rfl, rfl, rfl, rfl, rfl, rfl⟩
  · intro hmiss
    unfold handleDepositCommon
    rw [if_neg (by simp [hsec]), if_pos hmiss]
  · intro c hmiss hc hparse
    unfold handleDepositCommon
    rw [if_neg (by simp [hsec]), if_neg (by simp [hmiss]), hc]
    simp only [Option.getD_some, hparse]
  · intro c d n hmiss hc hparse hd hflo
    unfold handleDepositCommon
    rw [if_neg (by simp [hsec]), if_neg (by simp [hmiss]), hc, hd]
    simp only [Option.getD_some, hparse, hflo]

def c8wDb : Db :=
  { users := [], deposits := [], settings := some defaultSettings,
    nextUserId := 1, nextDepId := 1 }

def c8ReqMissing : Req :=
  { secret := none, hdrSecret := none, trader_id := some "T1", click_id := none,
    sumdep := some "50", wdr_sum := none }

def c8ReqBadClick : Req :=
  { secret := none, hdrSecret := none, trader_id := some "T1",
    click_id := some "not_a_number", sumdep := some "50", wdr_sum := none }

def c8ReqBadSum : Req :=
  { secret := none, hdrSecret := none, trader_id := some "T1",
    click_id := some "7", sumdep := some "abc", wdr_sum := none }

/-- Witness for C8: one request per malformed-input kind, each soft-rejected
with the store unchanged. -/
theorem c8_soft_reject_witness :
    handleDepositCommon "" c8ReqMissing false c8wDb =
      { db := c8wDb, resp := Resp.missingParams, notifiedVip := false } ∧
    handleDepositCommon "" c8ReqBadClick false c8wDb =
      { db := c8wDb, resp := Resp.badClickId, notifiedVip := false } ∧
    handleDepositCommon "" c8ReqBadSum false c8wDb =
      { db := c8wDb, resp := Resp.badSumdep, notifiedVip := false } :=
  ⟨(c8_soft_reject "" c8ReqMissing false c8wDb rfl).1 (by decide),
   (c8_soft_reject "" c8ReqBadClick false c8wDb rfl).2.1 "not_a_number"
     (by decide) rfl (by decide),
   (c8_soft_reject "" c8ReqBadSum false c8wDb rfl).2.2.1 "7" "abc" 7
     (by decide) rfl (by decide) rfl (by decide)⟩

/-! Preservation of existing rows across an engine invocation. -/

theorem findU_append_of_none {l1 : List User} {tg : Int}
    (h : findU l1 tg = none) (l2 : List User) :
    findU (l1 ++ l2) tg = findU l2 tg := by
  induction l1 with
  | nil => rfl
  | cons x xs ih =>
      rw [findU_cons] at h
      rw [List.cons_append, findU_cons]
      by_cases hx : (x.telegram_id == tg) = true
      · simp [hx] at h
      · simp only [hx, if_false] at h ⊢
        exact ih h

theorem findUserByTg_append_fresh (db : Db) (tg : Int)
    (hn : findUserByTg db tg = none) :
    findUserByTg
      { db with users := db.users ++ [freshUser db.nextUserId tg none],
                nextUserId := db.nextUserId + 1 } tg
      = some (freshUser db.nextUserId tg none) := by
  show findU (db.users ++ [freshUser db.nextUserId tg none]) tg = _
  rw [findU_append_of_none hn, findU_cons]
  simp [freshUser]

/-- Running the flow for an unknown identity first inserts the fresh
default account and then behaves like a run on the enlarged store. -/
theorem runFlow_absent (db : Db) (tg : Int) (oracle : Bool)
    (hn : findUserByTg db tg = none) :
    runFlow db tg oracle =
      runFlow { db with users := db.users ++ [freshUser db.nextUserId tg none],
                        nextUserId := db.nextUserId + 1 } tg oracle := by
  have h1 := getOrCreateUser_absent hn
  have h2 := getOrCreateUser_found (findUserByTg_append_fresh db tg hn)
  unfold runFlow
  rw [h1, h2]

/-- The four branch outcomes of an `advance` invocation on an existing
account. -/
theorem runFlow_found_cases (db : Db) (tg : Int) (oracle : Bool) (u : User)
    (hu : findUserByTg db tg = some u) :
    runFlow db tg oracle =
      { db := (getSettings db).2,
        trace := [Ev.readUser, Ev.readSettings, Ev.openMiniapp] } ∨
    runFlow db tg oracle =
      { db := (flowAfterSub { u with is_subscribed := true } (getSettings db).1
                 (setSubscribedById (getSettings db).2 u.id)).db,
        trace := Ev.readUser :: Ev.readSettings :: Ev.subCheck true ::
                 Ev.readUser :: Ev.writeSubscribed ::
                 (flowAfterSub { u with is_subscribed := true } (getSettings db).1
                    (setSubscribedById (getSettings db).2 u.id)).trace } ∨
    runFlow db tg oracle =
      { db := (getSettings db).2,
        trace := [Ev.readUser, Ev.readSettings, Ev.subCheck false,
                  Ev.promptSubscription] } ∨
    runFlow db tg oracle =
      { db := (flowAfterSub u (getSettings db).1 (getSettings db).2).db,
        trace := Ev.readUser :: Ev.readSettings ::
                 (flowAfterSub u (getSettings db).1 (getSettings db).2).trace } := by
  have hrf := runFlow_found db tg oracle u hu
  rw [hrf]
  by_cases hacc : (u.has_basic_access || u.is_vip) = true
  · left
    simp [hacc]
  · by_cases hP : ((getSettings db).1.require_subscription && !u.is_subscribed &&
        isSubscribedViaApi (getSettings db).1.channel_id oracle) = true
    · right; left
      simp [hacc, hP]
    · by_cases hS : ((getSettings db).1.require_subscription && !u.is_subscribed) = true
      · have hapi : isSubscribedViaApi (getSettings db).1.channel_id oracle = false := by
          rw [hS] at hP
          simpa using hP
        right; right; left
        simp [hacc, hP, hS, hapi]
      · right; right; right
        simp [hacc, hP, hS]

theorem runFlow_find_trader_found (db : Db) (tg : Int) (oracle : Bool) (u : User)
    (hu : findUserByTg db tg = some u) (tg2 : Int) (w : User)
    (hw : findUserByTg db tg2 = some w) :
    (findUserByTg (runFlow db tg oracle).db tg2).map User.trader_id
      = some w.trader_id := by
  have hwd : findUserByTg (getSettings db).2 tg2 = some w := by
    rw [findUserByTg_getSettings]; exact hw
  have hsubpres : (findUserByTg (setSubscribedById (getSettings db).2 u.id) tg2).map
      User.trader_id = some w.trader_id := by
    rw [findUserByTg_setSubscribed, hwd]
    by_cases hww : (w.id == u.id) = true
    · simp only [Option.map_some', if_pos hww]
    · simp only [Option.map_some', if_neg hww]
  rcases runFlow_found_cases db tg oracle u hu with hres | hres | hres | hres <;>
    rw [hres]
  · show (findUserByTg (getSettings db).2 tg2).map User.trader_id = some w.trader_id
    rw [hwd]
    rfl
  · show (findUserByTg (flowAfterSub _ _ _).db tg2).map User.trader_id
      = some w.trader_id
    rw [flowAfterSub_find_pres User.trader_id (fun v b => rfl)]
    exact hsubpres
  · show (findUserByTg (getSettings db).2 tg2).map User.trader_id = some w.trader_id
    rw [hwd]
    rfl
  · show (findUserByTg (flowAfterSub _ _ _).db tg2).map User.trader_id
      = some w.trader_id
    rw [flowAfterSub_find_pres User.trader_id (fun v b => rfl)]
    rw [hwd]
    rfl

theorem runFlow_find_trader (db : Db) (tg : Int) (oracle : Bool) (tg2 : Int)
    (w : User) (hw : findUserByTg db tg2 = some w) :
    (findUserByTg (runFlow db tg oracle).db tg2).map User.trader_id
      = some w.trader_id := by
  cases hu : findUserByTg db tg with
  | some u => exact runFlow_find_trader_found db tg oracle u hu tg2 w hw
  | none =>
      rw [runFlow_absent db tg oracle hu]
      refine runFlow_find_trader_found _ tg oracle _
        (findUserByTg_append_fresh db tg hu) tg2 w ?_
      show findU (db.users ++ [freshUser db.nextUserId tg none]) tg2 = some w
      exact findU_append_of_some hw _

theorem notifyVipGranted_find_pres (db : Db) (tg tg2 : Int) (w : User)
    (hw : findUserByTg db tg2 = some w) :
    findUserByTg (notifyVipGranted db tg).1 tg2 = some w := by
  unfold notifyVipGranted
  cases hu : findUserByTg db tg with
  | some u =>
      rw [getOrCreateUser_found hu]
      exact hw
  | none =>
      rw [getOrCreateUser_absent hu]
      show findU (db.users ++ [freshUser db.nextUserId tg none]) tg2 = some w
      exact findU_append_of_some hw _

def c4Settings : Settings :=
  { defaultSettings with require_subscription := false }

def c4User : User :=
  { id := 1, telegram_id := 1, username := none, language := none,
    is_subscribed := false, is_registered := true, has_basic_access := false,
    is_vip := false, trader_id := some "A" }

def c4Db : Db :=
  { users := [c4User], deposits := [], settings := some c4Settings,
    nextUserId := 2, nextDepId := 1 }

def c4Req : Req :=
  { secret := none, hdrSecret := none, trader_id := some "B",
    click_id := some "1", sumdep := none, wdr_sum := none }

/-- Claim C4, counterexample: the account already carries
`trader_id = "A"`, yet a further registration postback with
`trader_id = "B"` overwrites it (line 260 of `postback_app.py` assigns
`user.trader_id = str(trader_id)` unconditionally), so `trader_ref` is not
first-write-wins across all postback kinds. -/
theorem c4_counterexample :
    (findUserByTg c4Db 1).map User.trader_id = some (some "A") ∧
    (findUserByTg (postbackRegistration "" c4Req false c4Db).1 1).map
      User.trader_id = some (some "B") := by
  constructor <;> decide

/-- The store chain a deposit postback performs after its commit — run the
flow, optionally notify the new VIP, and lazily read settings for the group
notification — preserves the trader id of the committed account row. -/
theorem deposit_chain_trader (db : Db) (u : User) (tg : Int) (oracle : Bool)
    (f : User → User) (deps : List DepositRow) (st : Option Settings)
    (nid : Nat) (bv : Bool)
    (hu : findUserByTg db tg = some u)
    (hf : ∀ w, (f w).telegram_id = w.telegram_id)
    (hft : (f u).trader_id = u.trader_id) :
    (findUserByTg (getSettings (if bv then
        (notifyVipGranted (runFlow
          { updateUserById db u.id f with
            deposits := deps, settings := st, nextDepId := nid } tg oracle).db tg).1
      else (runFlow
          { updateUserById db u.id f with
            deposits := deps, settings := st, nextDepId := nid } tg oracle).db)).2
      tg).map User.trader_id = some u.trader_id := by
  have h1 : findUserByTg
      { updateUserById db u.id f with
        deposits := deps, settings := st, nextDepId := nid } tg = some (f u) := by
    show findUserByTg (updateUserById db u.id f) tg = some (f u)
    rw [findUserByTg_update db u.id f hf tg, hu]
    simp
  have h2 := runFlow_find_trader_found _ tg oracle _ h1 tg _ h1
  rcases Option.map_eq_some'.mp h2 with ⟨w, hw, hwt⟩
  rw [findUserByTg_getSettings]
  cases bv with
  | false =>
      rw [if_neg (by simp)]
      exact h2.trans (by rw [hft])
  | true =>
      rw [if_pos rfl]
      rw [notifyVipGranted_find_pres _ tg tg w hw]
      simp only [Option.map_some']
      rw [hwt, hft]

/-- Claim C4 as amended: a deposit postback sets `trader_id` only when it
is unset (NULL or empty) and never overwrites a set value; a registration
postback, however, always overwrites `trader_id` with the incoming value
(and sets `is_registered`).  Part one states the registration behaviour,
part two the deposit behaviour. -/
theorem c4_amended :
    (∀ (cfg : String) (req : Req) (oracle : Bool) (db : Db) (tg : Int)
       (c : String) (u : User),
      checkSecret cfg req.secret req.hdrSecret = true →
      strFalsy req.trader_id = false →
      req.click_id = some c → pyParseInt c = some tg →
      findUserByTg db tg = some u →
      (findUserByTg (postbackRegistration cfg req oracle db).1 tg).map
        User.trader_id = some req.trader_id) ∧
    (∀ (cfg : String) (req : Req) (oracle : Bool) (db : Db) (tg : Int)
       (c d : String) (amt : Rat) (u : User),
      checkSecret cfg req.secret req.hdrSecret = true →
      (strFalsy req.trader_id || strFalsy req.click_id ||
        (req.sumdep == none)) = false →
      req.click_id = some c → pyParseInt c = some tg →
      req.sumdep = some d → pyParseFloat (pyCommaToDot d) = some amt →
      findUserByTg db tg = some u → strFalsy u.trader_id = false →
      (findUserByTg (handleDepositCommon cfg req oracle db).db tg).map
        User.trader_id = some u.trader_id) := by
  constructor
  · intro cfg req oracle db tg c u hsec htr hc hparse hu
    have hempty : pyParseInt "" = none := rfl
    have hcf : strFalsy req.click_id = false := by
      rw [hc]
      by_cases hcc : c = ""
      · rw [hcc, hempty] at hparse
        exact absurd hparse (by simp)
      · simp [strFalsy, hcc]
    have hu2 : findUserByTg
        (updateUserById db u.id
          (fun w => { w with trader_id := req.trader_id, is_registered := true })) tg
        = some { u with trader_id := req.trader_id, is_registered := true } := by
      rw [findUserByTg_update db u.id
        (fun w => { w with trader_id := req.trader_id, is_registered := true })
        (fun w => rfl) tg, hu]
      simp
    unfold postbackRegistration
    rw [if_neg (by simp [hsec]), if_neg (by simp [htr, hcf]), hc]
    simp only [Option.getD_some, hparse, hu]
    rw [findUserByTg_getSettings]
    exact runFlow_find_trader_found _ tg oracle _ hu2 tg _ hu2
  · intro cfg req oracle db tg c d amt u hsec hmiss hc hparse hd hflo hu hut
    unfold handleDepositCommon
    rw [if_neg (by simp [hsec]), if_neg (by simp [hmiss]), hc, hd]
    simp only [Option.getD_some, hparse, hflo, hu]
    refine deposit_chain_trader db u tg oracle _ _ _ _ _ hu (fun w => rfl) ?_
    simp [hut]

def c4wReqDep : Req :=
  { secret := none, hdrSecret := none, trader_id := some "B",
    click_id := some "1", sumdep := some "50", wdr_sum := none }

/-- Witness for the amended C4: a registration postback overwriting the
stored trader id "A" with "B", and a deposit postback leaving the stored
trader id "A" untouched. -/
theorem c4_amended_witness :
    (findUserByTg (postbackRegistration "" c4Req true c4Db).1 1).map
      User.trader_id = some c4Req.trader_id ∧
    (findUserByTg (handleDepositCommon "" c4wReqDep true c4Db).db 1).map
      User.trader_id = some c4User.trader_id :=
  ⟨c4_amended.1 "" c4Req true c4Db 1 "1" c4User rfl (by decide) rfl (by decide)
     (by decide),
   c4_amended.2 "" c4wReqDep true c4Db 1 "1" "50" 50 c4User rfl (by decide) rfl
     (by decide) rfl (by decide) (by decide) (by decide)⟩

theorem totalDeposit_append (deps : List DepositRow) (uid did : Nat) (amt : Rat) :
    totalDeposit (deps ++ [{ id := did, user_id := uid, amount := amt }]) uid
      = totalDeposit deps uid + amt := by
  unfold totalDeposit
  rw [List.filter_append, List.foldl_append]
  simp

/-- After a deposit postback commit that left the account VIP, the trailing
chain — flow run (which short-circuits), VIP notification, lazy settings
read — still reports the account as VIP. -/
theorem deposit_chain_vip (db : Db) (u : User) (tg : Int) (oracle : Bool)
    (f : User → User) (deps : List DepositRow) (st : Option Settings) (nid : Nat)
    (hu : findUserByTg db tg = some u)
    (hf : ∀ w, (f w).telegram_id = w.telegram_id)
    (hfv : (f u).is_vip = true) :
    (findUserByTg (getSettings
        (notifyVipGranted (runFlow
          { updateUserById db u.id f with
            deposits := deps, settings := st, nextDepId := nid } tg oracle).db
          tg).1).2 tg).map User.is_vip = some true := by
  have h1 : findUserByTg
      { updateUserById db u.id f with
        deposits := deps, settings := st, nextDepId := nid } tg = some (f u) := by
    show findUserByTg (updateUserById db u.id f) tg = some (f u)
    rw [findUserByTg_update db u.id f hf tg, hu]
    simp
  have hacc : ((f u).has_basic_access || (f u).is_vip) = true := by
    rw [hfv]
    simp
  have hres := runFlow_found _ tg oracle _ h1
  rw [hres]
  simp only [hacc, if_true]
  have h2 : findUserByTg (getSettings
      { updateUserById db u.id f with
        deposits := deps, settings := st, nextDepId := nid }).2 tg = some (f u) := by
    rw [findUserByTg_getSettings]
    exact h1
  rw [findUserByTg_getSettings, notifyVipGranted_find_pres _ tg tg _ h2]
  simp [hfv]

/-- Claim C7: for a deposit postback on an existing account, the handler
invokes `notify_vip_granted` exactly when the VIP threshold is strictly
positive, the recomputed total (the stored rows plus the just-appended
amount) reaches it, and the account was not already VIP — so the became-VIP
notification fires exactly once per transition, and a later deposit
postback for an already-VIP account never triggers it again; moreover when
that condition holds, `vip = true` is persisted before the notification is
sent and the final store reports the account as VIP. -/
theorem c7_vip_once (cfg : String) (req : Req) (oracle : Bool) (db : Db)
    (tg : Int) (c d : String) (amt : Rat) (u : User) (s : Settings)
    (hsec : checkSecret cfg req.secret req.hdrSecret = true)
    (hmiss : (strFalsy req.trader_id || strFalsy req.click_id ||
      (req.sumdep == none)) = false)
    (hc : req.click_id = some c) (hparse : pyParseInt c = some tg)
    (hd : req.sumdep = some d) (hflo : pyParseFloat (pyCommaToDot d) = some amt)
    (hu : findUserByTg db tg = some u) (hs : db.settings = some s) :
    (handleDepositCommon cfg req oracle db).notifiedVip
      = (decide (0 < s.vip_threshold_amount) &&
         decide (s.vip_threshold_amount ≤ totalDeposit db.deposits u.id + amt) &&
         !u.is_vip) ∧
    ((decide (0 < s.vip_threshold_amount) &&
      decide (s.vip_threshold_amount ≤ totalDeposit db.deposits u.id + amt) &&
      !u.is_vip) = true →
      (findUserByTg (handleDepositCommon cfg req oracle db).db tg).map
        User.is_vip = some true) := by
  unfold handleDepositCommon
  rw [if_neg (by simp [hsec]), if_neg (by simp [hmiss]), hc, hd]
  simp only [Option.getD_some, hparse, hflo, hu, hs, totalDeposit_append]
  constructor
  · trivial
  · intro hbv
    rw [hbv, if_pos rfl]
    refine deposit_chain_vip db u tg oracle _ _ _ _ hu (fun w => rfl) ?_
    simp

def c7wSettings : Settings :=
  { defaultSettings with
    require_subscription := false,
    require_deposit := false,
    vip_threshold_amount := 100 }

def c7wUser : User :=
  { id := 1, telegram_id := 9, username := none, language := none,
    is_subscribed := false, is_registered := true, has_basic_access := true,
    is_vip := false, trader_id := some "T" }

def c7wDb : Db :=
  { users := [c7wUser], deposits := [{ id := 1, user_id := 1, amount := 60 }],
    settings := some c7wSettings, nextUserId := 2, nextDepId := 2 }

def c7wReq : Req :=
  { secret := none, hdrSecret := none, trader_id := some "T",
    click_id := some "9", sumdep := some "50", wdr_sum := none }

/-- Witness for C7: prior total 60, deposit 50, threshold 100 — the account
becomes VIP, the notification fires, and the final store has `vip = true`. -/
theorem c7_vip_once_witness :
    ((handleDepositCommon "" c7wReq true c7wDb).notifiedVip
      = (decide (0 < c7wSettings.vip_threshold_amount) &&
         decide (c7wSettings.vip_threshold_amount ≤
           totalDeposit c7wDb.deposits c7wUser.id + 50) &&
         !c7wUser.is_vip) ∧
     ((decide (0 < c7wSettings.vip_threshold_amount) &&
       decide (c7wSettings.vip_threshold_amount ≤
         totalDeposit c7wDb.deposits c7wUser.id + 50) &&
       !c7wUser.is_vip) = true →
       (findUserByTg (handleDepositCommon "" c7wReq true c7wDb).db 9).map
         User.is_vip = some true)) :=
  c7_vip_once "" c7wReq true c7wDb 9 "9" "50" 50 c7wUser c7wSettings rfl
    (by decide) rfl (by decide) rfl (by decide) (by decide) rfl

def c6Db : Db :=
  { users := [], deposits := [], settings := some defaultSettings,
    nextUserId := 1, nextDepId := 1 }

def c6Req : Req :=
  { secret := none, hdrSecret := none, trader_id := some "T1",
    click_id := some "7", sumdep := some "50", wdr_sum := none }

/-- Claim C6 (code bug): a well-formed deposit postback whose click id has
no existing Account does not create the account and append the deposit as
the spec requires — instead the handler constructs
`Deposit(user_id=user.id)` while `user.id` is still None (primary keys are
assigned only at flush, and the new `User` was only session-added), so the
autoflush at the SUM query violates the NOT NULL constraint on
`deposits.user_id`: the request fails with a server error and the rolled
back transaction leaves no Account row and no Deposit row. -/
theorem c6_new_account_deposit_fails :
    handleDepositCommon "" c6Req false c6Db =
      { db := c6Db, resp := Resp.serverError, notifiedVip := false } ∧
    Resp.status Resp.serverError = 500 ∧
    (handleDepositCommon "" c6Req false c6Db).db.users = [] ∧
    (handleDepositCommon "" c6Req false c6Db).db.deposits = [] := by
  refine ⟨by decide, rfl, by decide, by decide⟩
